import Mathlib

/-!
Verification of the Agentic Operation System (AOS) core against its
natural-language specification.

The development shallowly embeds the Python modules `aos/ledger.py`,
`aos/agent.py`, `aos/orchestrator.py`, `aos/toolbox.py` and
`aos/tools/plugins/file_manager.py`:

* Python `float` amounts are modelled as exact rationals (`ℚ`); the
  claims under scrutiny are about comparisons and exact arithmetic
  identities, which the source states over real-number arithmetic
  (the literal `0.75` is the exact dyadic rational `3/4`).
* A Python `dict` is modelled as an association list with first-match
  lookup and update-or-append assignment, which matches `dict` key
  semantics.
* A raised Python exception is modelled with `Except`: ledger methods
  raise before any mutation, so an `Except.error` result stands for an
  exception leaving the receiver unchanged; functions whose callers
  observe partially-mutated state on an exception return the state
  alongside the `Except` value.
* External effects (the LLM call, tool subprocesses, the real file
  system) enter as explicit oracle parameters; everything the claims
  quantify over is quantified here.
-/

namespace AOS

/-- `TransactionType` from `aos/ledger.py`. -/
inductive TransactionType where
  | api_call
  | spawn_agent
  | tool_usage
  | budget_allocation
  | agent_death
  | refund
  deriving DecidableEq, Repr

/-- The exceptions the embedded code can raise (`ValueError`,
`AccountNotFoundError`, `InsufficientFundsError`, `KeyError`,
`AttributeError`, `PermissionError`). -/
inductive PyError where
  | valueError
  | accountNotFound
  | insufficientFunds
  | keyError
  | attributeError
  | permissionError
  deriving DecidableEq, Repr

/-- `Transaction` from `aos/ledger.py` (the wall-clock timestamp and the
optional metadata field carry no information used by any claim and are
omitted). -/
structure Transaction where
  agent_id : String
  transaction_type : TransactionType
  amount : ℚ
  description : String
  deriving DecidableEq, Repr

/-- The `agent_balances : Dict[str, float]` of the ledger, as an
association list. -/
abbrev Balances := List (String × ℚ)

/-- `dict.get`: first matching key. -/
def lookupBal : Balances → String → Option ℚ
  | [], _ => none
  | (k, v) :: rest, key => if k = key then some v else lookupBal rest key

/-- `dict[key] = value`: overwrite in place if the key exists, append
otherwise. -/
def setBal : Balances → String → ℚ → Balances
  | [], key, value => [(key, value)]
  | (k, v) :: rest, key, value =>
      if k = key then (key, value) :: rest else (k, v) :: setBal rest key value

/-- The `Ledger` state: the append-only transaction log and the balance
table. -/
structure Ledger where
  transactions : List Transaction
  agent_balances : Balances
  deriving DecidableEq, Repr

/-- The freshly-constructed ledger (`Ledger.__init__`). -/
def Ledger.empty : Ledger := ⟨[], []⟩

/-- `Ledger._record_transaction`: append one entry to the log. -/
def Ledger.record_transaction (l : Ledger) (agent_id : String)
    (transaction_type : TransactionType) (amount : ℚ) (description : String) : Ledger :=
  { l with transactions := l.transactions ++ [⟨agent_id, transaction_type, amount, description⟩] }

/-- `Ledger.create_account`: raises `ValueError` on a duplicate account or
a negative initial balance, otherwise installs the balance. -/
def Ledger.create_account (l : Ledger) (agent_id : String) (initial_balance : ℚ) :
    Except PyError Ledger :=
  if (lookupBal l.agent_balances agent_id).isSome then .error .valueError
  else if initial_balance < 0 then .error .valueError
  else .ok { l with agent_balances := setBal l.agent_balances agent_id initial_balance }

/-- `Ledger.get_balance`: `dict.get(agent_id, 0.0)`. -/
def Ledger.get_balance (l : Ledger) (agent_id : String) : ℚ :=
  (lookupBal l.agent_balances agent_id).getD 0

/-- `Ledger.charge`: raises `ValueError` for a non-positive amount and
`AccountNotFoundError` for an unknown account; on insufficient funds it
records a zero-amount `agent_death` transaction and returns `false`; on
success it decrements the balance, records the negated amount and
returns `true`. -/
def Ledger.charge (l : Ledger) (agent_id : String) (amount : ℚ)
    (transaction_type : TransactionType) (description : String) :
    Except PyError (Bool × Ledger) :=
  if amount ≤ 0 then .error .valueError
  else
    match lookupBal l.agent_balances agent_id with
    | none => .error .accountNotFound
    | some bal =>
        if bal < amount then
          .ok (false, l.record_transaction agent_id .agent_death 0
            ("Agent died - insufficient funds for: " ++ description))
        else
          .ok (true,
            Ledger.record_transaction
              { l with agent_balances := setBal l.agent_balances agent_id (bal - amount) }
              agent_id transaction_type (-amount) description)

/-- `Ledger.credit`: raises `ValueError` for a non-positive amount and
`AccountNotFoundError` for an unknown account; otherwise increments the
balance and records the (positive) amount. -/
def Ledger.credit (l : Ledger) (agent_id : String) (amount : ℚ)
    (transaction_type : TransactionType) (description : String) :
    Except PyError (Bool × Ledger) :=
  if amount ≤ 0 then .error .valueError
  else
    match lookupBal l.agent_balances agent_id with
    | none => .error .accountNotFound
    | some bal =>
        .ok (true,
          Ledger.record_transaction
            { l with agent_balances := setBal l.agent_balances agent_id (bal + amount) }
            agent_id transaction_type amount description)

/-- `Ledger.transfer`: validations in source order, then the two balance
mutations (the destination balance being read after the source was
debited, which makes a self-transfer a no-op) and the two log entries. -/
def Ledger.transfer (l : Ledger) (from_agent to_agent : String) (amount : ℚ)
    (description : String) : Except PyError (Bool × Ledger) :=
  if amount ≤ 0 then .error .valueError
  else
    match lookupBal l.agent_balances from_agent with
    | none => .error .accountNotFound
    | some balFrom =>
        if (lookupBal l.agent_balances to_agent).isNone then .error .accountNotFound
        else if balFrom < amount then .error .insufficientFunds
        else
          let l1 : Ledger :=
            { l with agent_balances := setBal l.agent_balances from_agent (balFrom - amount) }
          match lookupBal l1.agent_balances to_agent with
          | none => .error .keyError
          | some balTo =>
              let l2 : Ledger :=
                { l1 with agent_balances := setBal l1.agent_balances to_agent (balTo + amount) }
              .ok (true,
                (l2.record_transaction from_agent .budget_allocation (-amount)
                    ("Transfer to " ++ to_agent ++ ": " ++ description)).record_transaction
                  to_agent .budget_allocation amount
                  ("Transfer from " ++ from_agent ++ ": " ++ description))

/-! ### Claim C2: no ledger operation drives a balance negative -/

/-- One call into the ledger's public mutating interface. -/
inductive LedgerOp where
  | create_account (agent_id : String) (initial_balance : ℚ)
  | charge (agent_id : String) (amount : ℚ) (ty : TransactionType) (description : String)
  | credit (agent_id : String) (amount : ℚ) (ty : TransactionType) (description : String)
  | transfer (from_agent to_agent : String) (amount : ℚ) (description : String)
  deriving DecidableEq, Repr

/-- Apply one operation. Every raise in the source happens before any
mutation, so a raising call leaves the ledger as it was. -/
def applyOp (l : Ledger) : LedgerOp → Ledger
  | .create_account agent_id init =>
      match l.create_account agent_id init with
      | .ok l2 => l2
      | .error _ => l
  | .charge agent_id amount ty d =>
      match l.charge agent_id amount ty d with
      | .ok (_, l2) => l2
      | .error _ => l
  | .credit agent_id amount ty d =>
      match l.credit agent_id amount ty d with
      | .ok (_, l2) => l2
      | .error _ => l
  | .transfer from_agent to_agent amount d =>
      match l.transfer from_agent to_agent amount d with
      | .ok (_, l2) => l2
      | .error _ => l

/-- Run a whole sequence of ledger operations. -/
def applyOps (l : Ledger) (ops : List LedgerOp) : Ledger :=
  ops.foldl applyOp l

/-- Every recorded balance is non-negative. -/
def Ledger.allNonneg (l : Ledger) : Prop :=
  ∀ p ∈ l.agent_balances, 0 ≤ p.2

/-! ### Agent-side data model (`aos/agent.py`, `aos/orchestrator.py`)

`Params` is the type of the `parameters` dictionaries carried in action
results and completion criteria; the embedding only needs its decidable
equality (Python compares these dictionaries with `==`) and a
distinguished element standing for the empty dictionary `{}`. -/

/-- `AgentState` from `aos/agent.py`. -/
inductive AgentState where
  | active
  | completed
  | failed
  | dead
  deriving DecidableEq, Repr

/-- A worker's `completion_criteria` dictionary, read through
`criteria.get("action") / .get("tool") / .get("parameters")`
(`none` models an absent key). -/
structure Criteria (Params : Type) where
  action : Option String
  tool : Option String
  parameters : Option Params
  deriving DecidableEq, Repr

/-- `AgentConfig` from `aos/agent.py` (defaults as in the dataclass; the
float literals are read as exact decimals). -/
structure AgentConfig (Params : Type) where
  role : String
  task : String
  budget : ℚ
  completion_criteria : Option (Criteria Params) := none
  parent_id : Option String := none
  max_subagents : ℕ := 5
  price_per_1m_input_tokens : ℚ := 5
  price_per_1m_output_tokens : ℚ := 15
  spawn_cost : ℚ := 1 / 100
  tool_use_cost : ℚ := 1 / 200
  deriving DecidableEq, Repr

/-- The `AgentConfig` built by `Orchestrator.spawn_agent` for a child
agent: role/task/budget/parent/criteria from the call, pricing and costs
copied from the system configuration. -/
def Orchestrator.spawn_agent_config (Params : Type) (role task : String) (budget : ℚ)
    (parent_id : Option String) (completion_criteria : Option (Criteria Params))
    (price_per_1m_input_tokens price_per_1m_output_tokens spawn_cost tool_use_cost : ℚ) :
    AgentConfig Params :=
  { role := role, task := task, budget := budget,
    completion_criteria := completion_criteria, parent_id := parent_id,
    price_per_1m_input_tokens := price_per_1m_input_tokens,
    price_per_1m_output_tokens := price_per_1m_output_tokens,
    spawn_cost := spawn_cost, tool_use_cost := tool_use_cost }

/-! ### Claims C3 and C4: `Agent._delegate_task` -/

/-- Outcome of `orchestrator.spawn_agent` seen from `_delegate_task`:
a fresh child id, the `MaxAgentsReachedError`, or any other exception
raised while spawning. (The ledger side of a successful spawn —
`agent.initialize` calling `create_account(child, budget)` — is part of
`Agent.delegate_task` below.) -/
inductive SpawnOutcome where
  | ok (child_id : String)
  | maxAgentsReached
  | otherError
  deriving DecidableEq, Repr

/-- The result dictionaries `_delegate_task` can return. -/
inductive DelegateRes where
  /-- `{"error": "Insufficient funds for spawn cost."}` -/
  | insufficientSpawnFunds
  /-- `{"error": "Failed to complete delegation transaction."}` -/
  | failedTransaction
  /-- `{"action": "delegate", "subagent_id": …}` -/
  | delegated (subagent_id : String)
  /-- `{"error": "Maximum number of agents has been reached.", …}` -/
  | maxAgentsError
  /-- `{"error": "An unexpected error occurred during agent spawn.", …}` -/
  | unexpectedError
  deriving DecidableEq, Repr

deriving instance DecidableEq for Except

/-- The `credit`-then-return tail of `_delegate_task`'s failure paths: a
refund of `amount` followed by the error result `res`. An error from
`credit` itself propagates, leaving the ledger as it was. -/
def Agent.delegate_refund (l : Ledger) (self_id : String) (amount : ℚ)
    (res : DelegateRes) (description : String) : Except PyError DelegateRes × Ledger :=
  match l.credit self_id amount .refund description with
  | .error e => (.error e, l)
  | .ok (_, l2) => (.ok res, l2)

/-- `Agent._delegate_task` (ledger-relevant behaviour), including the
`create_account(child, allocation)` performed by
`Orchestrator._create_agent → Agent.initialize` on a successful spawn.
The pair's second component is the ledger as left behind, also when an
uncaught exception (`Except.error`) escapes. -/
def Agent.delegate_task (l : Ledger) (self_id : String) (spawn_cost : ℚ)
    (outcome : SpawnOutcome) : Except PyError DelegateRes × Ledger :=
  let parent_balance := l.get_balance self_id
  if parent_balance < spawn_cost then (.ok .insufficientSpawnFunds, l)
  else
    let budget_to_allocate := (parent_balance - spawn_cost) * (3 / 4)
    match l.charge self_id spawn_cost .spawn_agent "Spawning sub-agent" with
    | .error e => (.error e, l)
    | .ok (false, l1) =>
        Agent.delegate_refund l1 self_id spawn_cost .failedTransaction
          "Refund for failed delegation."
    | .ok (true, l1) =>
        match l1.charge self_id budget_to_allocate .budget_allocation "Allocating budget" with
        | .error e => (.error e, l1)
        | .ok (false, l2) =>
            Agent.delegate_refund l2 self_id spawn_cost .failedTransaction
              "Refund for failed delegation."
        | .ok (true, l2) =>
            match outcome with
            | .ok child_id =>
                match l2.create_account child_id budget_to_allocate with
                | .ok l3 => (.ok (.delegated child_id), l3)
                | .error _ =>
                    Agent.delegate_refund l2 self_id (spawn_cost + budget_to_allocate)
                      .unexpectedError "Refund for unexpected spawn failure."
            | .maxAgentsReached =>
                Agent.delegate_refund l2 self_id (spawn_cost + budget_to_allocate)
                  .maxAgentsError "Refund for max agents reached."
            | .otherError =>
                Agent.delegate_refund l2 self_id (spawn_cost + budget_to_allocate)
                  .unexpectedError "Refund for unexpected spawn failure."

/-! ### Claim C5: denied debits and agent death (`Agent.think`,
`Agent._use_tool`) -/

/-- `Agent.think` (ledger- and state-relevant behaviour). The LLM reply
and its token counts are oracle inputs; the cost formula and every
state/ledger effect follow the source. The quadruple returned is
(result-or-uncaught-exception, agent state, thoughts list, ledger). -/
def Agent.think (l : Ledger) (state : AgentState) (thoughts : List String)
    (self_id : String) (price_per_1m_input_tokens price_per_1m_output_tokens : ℚ)
    (input_tokens output_tokens : ℕ) (response_text : String) :
    Except PyError String × AgentState × List String × Ledger :=
  let current_balance := l.get_balance self_id
  if current_balance ≤ 0 then (.ok "Out of funds", .dead, thoughts, l)
  else
    let cost := ((input_tokens : ℚ) / 1000000) * price_per_1m_input_tokens +
      ((output_tokens : ℚ) / 1000000) * price_per_1m_output_tokens
    if 0 < cost then
      match l.charge self_id cost .api_call "LLM API usage" with
      | .error e => (.error e, state, thoughts, l)
      | .ok (false, l1) => (.ok "Out of funds after final API call", .dead, thoughts, l1)
      | .ok (true, l1) =>
          if state ≠ .failed then (.ok response_text, state, thoughts ++ [response_text], l1)
          else (.ok response_text, state, thoughts, l1)
    else
      if state ≠ .failed then (.ok response_text, state, thoughts ++ [response_text], l)
      else (.ok response_text, state, thoughts, l)

/-- The result dictionaries `Agent._use_tool` can return. -/
inductive UseToolRes (Params : Type) where
  /-- `{"error": "No 'tool' name was specified."}` -/
  | noToolName
  /-- `{"error": "Insufficient funds for tool usage"}` -/
  | insufficientFunds
  /-- `{"action": "use_tool", "tool": …, "parameters": …, "result": …}` -/
  | executed (tool : String) (parameters : Params)
  deriving DecidableEq

/-- `Agent._use_tool`: charge `tool_use_cost` and execute; a denied
charge returns the error result dictionary and — as the triple makes
explicit — leaves the agent state untouched. -/
def Agent.use_tool (Params : Type) (l : Ledger) (state : AgentState) (self_id : String)
    (tool_use_cost : ℚ) (tool_name : Option String) (parameters : Params) :
    Except PyError (UseToolRes Params) × AgentState × Ledger :=
  match tool_name with
  | none => (.ok .noToolName, state, l)
  | some name =>
      match l.charge self_id tool_use_cost .tool_usage ("Using tool " ++ name) with
      | .error e => (.error e, state, l)
      | .ok (false, l1) => (.ok .insufficientFunds, state, l1)
      | .ok (true, l1) => (.ok (.executed name parameters), state, l1)

/-! ### Claims C6 and C10: worker completion (`Agent._is_task_complete`
and the worker branch of `Agent.run`) -/

/-- One entry of `self.results`: whether the dictionary carries an
`"error"` key, and its `action` / `tool` / `parameters` entries as read
with `.get` (`none` models an absent key). -/
structure ActionResult (Params : Type) where
  hasError : Bool
  action : Option String := none
  tool : Option String := none
  parameters : Option Params := none
  deriving DecidableEq

/-- The comparison performed inside `Agent._is_task_complete`:
`action_taken` (with `parameters` defaulted to the empty dictionary,
`default`) compared field-wise against `criteria.get(...)`; a criteria
record without a `parameters` key never matches, since in Python a
dictionary never equals `None`. -/
def matchesCriteria (Params : Type) [DecidableEq Params] [Inhabited Params]
    (r : ActionResult Params) (criteria : Criteria Params) : Bool :=
  r.action == criteria.action && r.tool == criteria.tool &&
    (match criteria.parameters with
     | none => false
     | some p => r.parameters.getD default == p)

/-- The worker branch (`config.parent_id ≠ None`) of
`Agent._is_task_complete`: without criteria, at least two non-error
results; with criteria, some non-error result (scanned from the most
recent) matching the criteria. -/
def Agent.is_task_complete_worker (Params : Type) [DecidableEq Params] [Inhabited Params]
    (completion_criteria : Option (Criteria Params))
    (results : List (ActionResult Params)) : Bool :=
  match completion_criteria with
  | none => decide (2 ≤ (results.filter (fun r => !r.hasError)).length)
  | some criteria =>
      results.reverse.any (fun r => !r.hasError && matchesCriteria Params r criteria)

/-- The worker-visible loop state of `Agent.run`: agent state, recorded
results, the consecutive-error counter, and whether the auto-delivery
hook `_deliver_files` has been invoked. -/
structure WorkerSt (Params : Type) where
  state : AgentState
  results : List (ActionResult Params)
  consecutive_errors : ℕ
  delivered : Bool
  deriving DecidableEq

/-- One iteration of the worker (`parent_id ≠ None`) branch of the
`while self.state == ACTIVE` loop in `Agent.run`: think (whose resulting
state is the oracle `think_state`; a non-Active result breaks out of the
loop), act (oracle result dictionary and post-act state), append the
result, bookkeep consecutive errors (3 in a row force Failed), then the
completion check, which on success invokes `_deliver_files` and sets
Completed. -/
def Agent.run_worker_iteration (Params : Type) [DecidableEq Params] [Inhabited Params]
    (completion_criteria : Option (Criteria Params)) (st : WorkerSt Params)
    (think_state : AgentState) (act_result : ActionResult Params)
    (act_state : AgentState) : WorkerSt Params :=
  if think_state ≠ .active then { st with state := think_state }
  else
    let results1 := st.results ++ [act_result]
    let errs := if act_result.hasError then st.consecutive_errors + 1 else 0
    let state1 :=
      if act_result.hasError then (if 3 ≤ errs then AgentState.failed else act_state)
      else act_state
    if Agent.is_task_complete_worker Params completion_criteria results1 then
      { state := .completed, results := results1, consecutive_errors := errs,
        delivered := true }
    else
      { state := state1, results := results1, consecutive_errors := errs,
        delivered := st.delivered }

/-! ### Claim C7: `Orchestrator._process_system_events` -/

/-- A mailbox message as inspected by `_process_system_events`: the
sender (`msg["from"]`), the `content.get("status")` and
`content.get("tool_code_path")` entries, and the remainder of the
content dictionary (which the scan never inspects). -/
structure PMsg where
  sender : String
  status : Option String
  tool_code_path : Option String
  rest : String
  deriving DecidableEq, Repr

/-- The single-quote character, `chr(39)`. -/
def squote : Char := Char.ofNat 39

/-- Python `str.strip()` on a character list. -/
def trimChars (cs : List Char) : List Char :=
  ((cs.dropWhile Char.isWhitespace).reverse.dropWhile Char.isWhitespace).reverse

/-- The suffix following the first occurrence of `pat`, or `none` when
`pat` does not occur. -/
def suffixAfterFirst (pat : List Char) : List Char → Option (List Char)
  | [] => if pat.isEmpty then some [] else none
  | c :: rest =>
      if pat.isPrefixOf (c :: rest) then some ((c :: rest).drop pat.length)
      else suffixAfterFirst pat rest

/-- The characters before the first occurrence of `stop`, or `none` when
`stop` does not occur. -/
def takeUntil (stop : Char) : List Char → Option (List Char)
  | [] => none
  | c :: rest => if c = stop then some [] else (takeUntil stop rest).map (c :: ·)

/-- The search pattern of `_extract_tool_description_from_task`:
`description: '`. -/
def descMarker : List Char := "description: ".toList ++ [squote]

/-- `Orchestrator._extract_tool_description_from_task`: the regex
`description: '(.*?)'` with DOTALL — the text between the first
`description: '` marker and the next single quote, stripped; `none`
when the pattern does not match. -/
def Orchestrator.extract_tool_description (forger_task : String) : Option String :=
  match suffixAfterFirst descMarker forger_task.toList with
  | none => none
  | some tail =>
      match takeUntil squote tail with
      | none => none
      | some group => some (String.mk (trimChars group))

/-- The opening sentence of the forging-task prompt built by
`Orchestrator.handle_tool_request` (the only part
`extract_tool_description` depends on; the remaining instructions of the
prompt follow after this prefix). -/
def Orchestrator.forging_task (description : String) : String :=
  "An agent has requested a new tool with the following description: " ++
    String.mk [squote] ++ description ++ String.mk [squote] ++
    ". Your mission is to create and validate this tool."

/-- Python `del d[key]` guarded by `key in d` on an association list. -/
def eraseKey : List (String × String) → String → List (String × String)
  | [], _ => []
  | (k, v) :: rest, key => if k = key then rest else (k, v) :: eraseKey rest key

/-- The orchestrator context consulted during one
`_process_system_events` pass: whether a sender id belongs to a
registered agent of role `Tool Forging Agent`, that agent's `config.task`,
and whether the reported tool file exists and can be copied (the
filesystem side of `_deploy_new_tool`). -/
structure SysEventCtx where
  isForgingAgent : String → Bool
  forgerTask : String → String
  deployFileOk : String → Bool

/-- The message loop of `_process_system_events` over one agent's
drained mailbox. Accumulators: `pending_tool_requests`, the forgers
marked Completed during the pass, `messages_to_keep_for_agent`, and the
`tool_request_fulfilled` notifications `_deploy_new_tool` sends to this
same mailbox. For a system message, after `_deploy_new_tool` the code
evaluates `self.pending_tool_requests.discard(original_description)`
whenever the extracted description is truthy — and
`pending_tool_requests` is a `dict`, which has no attribute `discard`,
so that statement raises `AttributeError`. -/
def Orchestrator.process_mailbox_msgs (ctx : SysEventCtx) (agent_id : String) :
    List PMsg → List (String × String) → List String → List PMsg → List PMsg →
    Except PyError (List (String × String) × List String × List PMsg × List PMsg)
  | [], pending, completed, kept, sent => .ok (pending, completed, kept, sent)
  | msg :: restMsgs, pending, completed, kept, sent =>
      if ctx.isForgingAgent msg.sender && msg.status == some "tool_creation_success" then
        let deployOk := ctx.deployFileOk msg.sender
        let pending1 := if deployOk then eraseKey pending agent_id else pending
        let sent1 :=
          if deployOk then sent ++ [⟨"AOS_SYSTEM", some "tool_request_fulfilled", none, ""⟩]
          else sent
        let original_description :=
          Orchestrator.extract_tool_description (ctx.forgerTask msg.sender)
        if original_description.getD "" ≠ "" then .error .attributeError
        else
          Orchestrator.process_mailbox_msgs ctx agent_id restMsgs pending1
            (completed ++ [msg.sender]) kept sent1
      else
        Orchestrator.process_mailbox_msgs ctx agent_id restMsgs pending completed
          (kept ++ [msg]) sent

/-- One pass of `_process_system_events` over one agent's mailbox:
drain it, process every message, then re-insert the kept non-system
messages at the front (before any notifications queued during the pass),
preserving their original order. An uncaught exception aborts the pass:
the drained messages are lost and nothing is re-inserted. -/
def Orchestrator.process_system_events_one (ctx : SysEventCtx) (agent_id : String)
    (mailbox : List PMsg) (pending : List (String × String)) :
    Except PyError (List PMsg × List (String × String) × List String) :=
  match Orchestrator.process_mailbox_msgs ctx agent_id mailbox pending [] [] [] with
  | .error e => .error e
  | .ok (pending1, completed, kept, sent) => .ok (kept ++ sent, pending1, completed)

/-! ### Claim C8: `Toolbox.initialize` and protected tools -/

set_option linter.unusedVariables false in
/-- The per-tool decision inside `Toolbox.initialize`'s plugin loop
(instantiate, then filter): the source computes
`is_protected_tool = (name == "pytest_runner")` but the subsequent
disabled-tools check never consults it. -/
def Toolbox.tool_registration_decision (disabled_tools : List String)
    (allow_messaging : Bool) (class_name tool_name : String) : Bool :=
  let is_protected_tool := tool_name == "pytest_runner"
  if disabled_tools.contains tool_name then false
  else if class_name == "MessagingTool" && !allow_messaging then false
  else true

/-- The tool names registered by one `Toolbox.initialize` scan, given
the discovered plugin classes `(class name, tool name)` in scan order. -/
def Toolbox.initialize_registered (disabled_tools : List String) (allow_messaging : Bool)
    (plugins : List (String × String)) : List String :=
  plugins.foldl
    (fun acc p =>
      if Toolbox.tool_registration_decision disabled_tools allow_messaging p.1 p.2 then
        acc ++ [p.2]
      else acc) []

/-! ### Claim C9: `FileManagerTool._get_safe_path` -/

/-- Split a character list on a separator (Python `str.split(sep)`). -/
def splitOnChar (sep : Char) : List Char → List (List Char)
  | [] => [[]]
  | c :: rest =>
      let r := splitOnChar sep rest
      if c = sep then [] :: r
      else
        match r with
        | [] => [[c]]
        | g :: gs => (c :: g) :: gs

/-- Join path components with `/`. -/
def joinSlash : List (List Char) → List Char
  | [] => []
  | [g] => g
  | g :: gs => g ++ '/' :: joinSlash gs

/-- POSIX `normpath` on an absolute path (what `os.path.abspath` applies
to an already-absolute path): drop empty and `.` components, resolve
`..` against the stack (at the root `..` is dropped), and re-join from
the root. -/
def posix_normpath_abs (s : String) : String :=
  let comps := (splitOnChar '/' s.toList).filter (fun c => c ≠ [] ∧ c ≠ ['.'])
  let stack := comps.foldl
    (fun acc comp => if comp = ['.', '.'] then acc.dropLast else acc ++ [comp]) []
  String.mk ('/' :: joinSlash stack)

/-- `os.path.join(workspace_dir, path)` for an absolute, slash-free-tail
`workspace_dir`: an absolute `path` replaces the workspace entirely. -/
def os_path_join (workspace_dir path : String) : String :=
  if ['/'].isPrefixOf path.toList then path else workspace_dir ++ "/" ++ path

/-- `str.startswith`. -/
def strStartsWith (s pre : String) : Bool :=
  pre.toList.isPrefixOf s.toList

/-- `FileManagerTool._get_safe_path`: absolutise and normalise the
joined path, then accept it iff the result starts with the workspace
path *as a string*; otherwise raise `PermissionError` (surfaced by
`execute` as a permission-denied error result). -/
def FileManagerTool.get_safe_path (workspace_dir path : String) : Except PyError String :=
  let full_path := posix_normpath_abs (os_path_join workspace_dir path)
  if strStartsWith full_path workspace_dir then .ok full_path
  else .error .permissionError

/-- Modelled from the spec: a canonicalised absolute path *escapes the
workspace root* iff the workspace's path components are not a prefix of
the path's components, i.e. the path does not lie inside the workspace
directory tree. -/
def spec_escapes_workspace (workspace_dir full_path : String) : Bool :=
  !(((splitOnChar '/' workspace_dir.toList).filter (fun c => c ≠ [])).isPrefixOf
    ((splitOnChar '/' full_path.toList).filter (fun c => c ≠ [])))

/-! ## Theorems -/

/-! ### Association-list lemmas -/

theorem lookupBal_setBal_self (l : Balances) (k : String) (v : ℚ) :
    lookupBal (setBal l k v) k = some v := by
  induction l with
  | nil => simp [setBal, lookupBal]
  | cons hd tl ih =>
      by_cases h : hd.1 = k
      · simp [setBal, h, lookupBal]
      · simp [setBal, h, lookupBal, ih]

theorem lookupBal_setBal_ne (l : Balances) (k k2 : String) (v : ℚ) (h : k2 ≠ k) :
    lookupBal (setBal l k v) k2 = lookupBal l k2 := by
  have h' : ¬ (k = k2) := fun hk => h hk.symm
  induction l with
  | nil => simp [setBal, lookupBal, h']
  | cons hd tl ih =>
      obtain ⟨a, b⟩ := hd
      by_cases hh : a = k
      · subst hh
        simp [setBal, lookupBal, h']
      · simp [setBal, lookupBal, hh, ih]

theorem mem_setBal (l : Balances) (k : String) (v : ℚ) (p : String × ℚ)
    (hp : p ∈ setBal l k v) : p.2 = v ∨ p ∈ l := by
  induction l with
  | nil =>
      simp [setBal] at hp
      simp [hp]
  | cons hd tl ih =>
      obtain ⟨a, b⟩ := hd
      by_cases h : a = k
      · subst h
        simp [setBal] at hp
        rcases hp with hp | hp
        · simp [hp]
        · exact Or.inr (List.mem_cons_of_mem _ hp)
      · simp only [setBal, h, if_false, List.mem_cons] at hp
        rcases hp with hp | hp
        · exact Or.inr (by simp [hp])
        · rcases ih hp with h2 | h2
          · exact Or.inl h2
          · exact Or.inr (List.mem_cons_of_mem _ h2)

theorem lookupBal_mem (l : Balances) (k : String) (v : ℚ)
    (h : lookupBal l k = some v) : (k, v) ∈ l := by
  induction l with
  | nil => simp [lookupBal] at h
  | cons hd tl ih =>
      obtain ⟨a, b⟩ := hd
      by_cases hh : a = k
      · subst hh
        simp [lookupBal] at h
        subst h
        exact List.mem_cons_self _ _
      · simp [lookupBal, hh] at h
        exact List.mem_cons_of_mem _ (ih h)

/-! ### Claim C1: correctness of `Ledger.charge` -/

/-- **C1.** For every account and every amount > 0, `Ledger.charge`
succeeds if and only if the account's balance is at least the amount (a
charge of exactly the balance succeeds and leaves 0); on success the
balance drops by the amount and a negative-amount transaction is
appended; on insufficient funds an `agent_death` transaction of amount 0
is appended, the balance stays unchanged and `false` is returned. -/
theorem C1_charge_correct (l : Ledger) (agent_id : String) (amount : ℚ)
    (ty : TransactionType) (d : String) (b : ℚ)
    (hamt : 0 < amount) (hb : lookupBal l.agent_balances agent_id = some b) :
    ((∃ l2, Ledger.charge l agent_id amount ty d = .ok (true, l2)) ↔ amount ≤ b) ∧
    (amount ≤ b →
      Ledger.charge l agent_id amount ty d =
        .ok (true,
          { transactions := l.transactions ++ [⟨agent_id, ty, -amount, d⟩],
            agent_balances := setBal l.agent_balances agent_id (b - amount) }) ∧
      lookupBal (setBal l.agent_balances agent_id (b - amount)) agent_id = some (b - amount) ∧
      (-amount) < 0 ∧
      (amount = b → b - amount = 0)) ∧
    (b < amount →
      Ledger.charge l agent_id amount ty d =
        .ok (false,
          { transactions :=
              l.transactions ++
                [⟨agent_id, .agent_death, 0, "Agent died - insufficient funds for: " ++ d⟩],
            agent_balances := l.agent_balances })) := by
  have hnpos : ¬ amount ≤ 0 := not_le.mpr hamt
  refine ⟨?_, ?_, ?_⟩
  · constructor
    · rintro ⟨l2, h2⟩
      by_contra hlt
      rw [not_le] at hlt
      simp [Ledger.charge, hnpos, hb, hlt] at h2
    · intro hle
      refine ⟨{ transactions := l.transactions ++ [⟨agent_id, ty, -amount, d⟩],
                agent_balances := setBal l.agent_balances agent_id (b - amount) }, ?_⟩
      simp [Ledger.charge, hnpos, hb, not_lt.mpr hle, Ledger.record_transaction]
  · intro hle
    refine ⟨?_, lookupBal_setBal_self _ _ _, by linarith, fun he => by simp [he]⟩
    simp [Ledger.charge, hnpos, hb, not_lt.mpr hle, Ledger.record_transaction]
  · intro hlt
    simp [Ledger.charge, hnpos, hb, hlt, Ledger.record_transaction]

/-- Witness for C1 at the concrete input of the spec's boundary case: an
account holding 5 charged exactly 5 succeeds. -/
theorem C1_charge_correct_witness :
    ∃ l2, Ledger.charge ⟨[], [("A", 5)]⟩ "A" 5 .api_call "x" = .ok (true, l2) :=
  ((C1_charge_correct ⟨[], [("A", 5)]⟩ "A" 5 .api_call "x" 5 (by norm_num) rfl).1).mpr
    (le_refl 5)

theorem allNonneg_applyOp (l : Ledger) (op : LedgerOp) (hl : l.allNonneg) :
    (applyOp l op).allNonneg := by
  cases op with
  | create_account agent_id init =>
      simp only [applyOp, Ledger.create_account]
      by_cases hdup : (lookupBal l.agent_balances agent_id).isSome
      · simpa [hdup] using hl
      · by_cases hneg : init < 0
        · simpa [hdup, hneg] using hl
        · simp only [hdup, hneg, if_false, Bool.false_eq_true]
          intro p hp
          rcases mem_setBal _ _ _ _ hp with h | h
          · rw [h]; exact not_lt.mp hneg
          · exact hl p h
  | charge agent_id amount ty d =>
      simp only [applyOp, Ledger.charge]
      by_cases hpos : amount ≤ 0
      · simpa [hpos] using hl
      · cases hbal : lookupBal l.agent_balances agent_id with
        | none => simpa [hpos, hbal] using hl
        | some bal =>
            by_cases hlt : bal < amount
            · simpa [hpos, hbal, hlt, Ledger.record_transaction] using hl
            · simp only [hpos, hbal, hlt, if_false, Ledger.record_transaction]
              intro p hp
              rcases mem_setBal _ _ _ _ hp with h | h
              · rw [h]
                have : 0 ≤ bal - amount := by linarith [not_lt.mp hlt]
                exact this
              · exact hl p h
  | credit agent_id amount ty d =>
      simp only [applyOp, Ledger.credit]
      by_cases hpos : amount ≤ 0
      · simpa [hpos] using hl
      · cases hbal : lookupBal l.agent_balances agent_id with
        | none => simpa [hpos, hbal] using hl
        | some bal =>
            simp only [hpos, hbal, if_false, Ledger.record_transaction]
            intro p hp
            rcases mem_setBal _ _ _ _ hp with h | h
            · rw [h]
              have h0 : (0 : ℚ) ≤ bal := hl _ (lookupBal_mem _ _ _ hbal)
              have h1 : (0 : ℚ) < amount := lt_of_not_le hpos
              linarith
            · exact hl p h
  | transfer from_agent to_agent amount d =>
      simp only [applyOp, Ledger.transfer]
      by_cases hpos : amount ≤ 0
      · simpa [hpos] using hl
      · cases hbal : lookupBal l.agent_balances from_agent with
        | none => simpa [hpos, hbal] using hl
        | some balFrom =>
            by_cases hto : (lookupBal l.agent_balances to_agent).isNone
            · simpa [hpos, hbal, hto] using hl
            · by_cases hlt : balFrom < amount
              · simpa [hpos, hbal, hto, hlt] using hl
              · have hFromNonneg : (0 : ℚ) ≤ balFrom - amount := by
                  linarith [not_lt.mp hlt]
                have hmid : ∀ p ∈ setBal l.agent_balances from_agent (balFrom - amount),
                    0 ≤ p.2 := by
                  intro p hp
                  rcases mem_setBal _ _ _ _ hp with h | h
                  · rw [h]; exact hFromNonneg
                  · exact hl p h
                cases hbalTo :
                    lookupBal (setBal l.agent_balances from_agent (balFrom - amount))
                      to_agent with
                | none => simpa [hpos, hbal, hto, hlt, hbalTo] using hl
                | some balTo =>
                    simp only [hpos, hbal, hto, hlt, hbalTo, if_false,
                      Ledger.record_transaction]
                    intro p hp
                    rcases mem_setBal _ _ _ _ hp with h | h
                    · rw [h]
                      have h0 : (0 : ℚ) ≤ balTo := hmid _ (lookupBal_mem _ _ _ hbalTo)
                      have h1 : (0 : ℚ) < amount := lt_of_not_le hpos
                      linarith
                    · exact hmid p h

/-- **C2.** For every sequence of ledger operations (`create_account`,
`charge`, `credit`, `transfer`) starting from the empty ledger, every
account balance is non-negative after every prefix of the sequence: no
ledger operation can drive any balance negative. (Each operation is
atomic here, matching the lock-protected critical sections of the
source.) -/
theorem C2_balances_nonneg (ops : List LedgerOp) :
    (applyOps Ledger.empty ops).allNonneg := by
  have : ∀ l : Ledger, l.allNonneg → (applyOps l ops).allNonneg := by
    induction ops with
    | nil => intro l hl; simpa [applyOps] using hl
    | cons op rest ih =>
        intro l hl
        have h1 := allNonneg_applyOp l op hl
        simpa [applyOps] using ih (applyOp l op) h1
  exact this Ledger.empty (by intro p hp; simp [Ledger.empty] at hp)

/-! Stepping lemmas for the ledger primitives. -/

theorem charge_ok (l : Ledger) (agent_id : String) (amount : ℚ) (ty : TransactionType)
    (d : String) (b : ℚ) (hamt : 0 < amount)
    (hb : lookupBal l.agent_balances agent_id = some b) (hle : amount ≤ b) :
    Ledger.charge l agent_id amount ty d =
      .ok (true, { transactions := l.transactions ++ [⟨agent_id, ty, -amount, d⟩],
                   agent_balances := setBal l.agent_balances agent_id (b - amount) }) := by
  simp [Ledger.charge, not_le.mpr hamt, hb, not_lt.mpr hle, Ledger.record_transaction]

theorem charge_denied (l : Ledger) (agent_id : String) (amount : ℚ) (ty : TransactionType)
    (d : String) (b : ℚ) (hamt : 0 < amount)
    (hb : lookupBal l.agent_balances agent_id = some b) (hlt : b < amount) :
    Ledger.charge l agent_id amount ty d =
      .ok (false,
        { transactions := l.transactions ++
            [⟨agent_id, .agent_death, 0, "Agent died - insufficient funds for: " ++ d⟩],
          agent_balances := l.agent_balances }) := by
  simp [Ledger.charge, not_le.mpr hamt, hb, hlt, Ledger.record_transaction]

theorem credit_ok (l : Ledger) (agent_id : String) (amount : ℚ) (ty : TransactionType)
    (d : String) (b : ℚ) (hamt : 0 < amount)
    (hb : lookupBal l.agent_balances agent_id = some b) :
    Ledger.credit l agent_id amount ty d =
      .ok (true, { transactions := l.transactions ++ [⟨agent_id, ty, amount, d⟩],
                   agent_balances := setBal l.agent_balances agent_id (b + amount) }) := by
  simp [Ledger.credit, not_le.mpr hamt, hb, Ledger.record_transaction]

theorem create_account_ok (l : Ledger) (agent_id : String) (init : ℚ)
    (hfresh : lookupBal l.agent_balances agent_id = none) (hinit : 0 ≤ init) :
    Ledger.create_account l agent_id init =
      .ok { l with agent_balances := setBal l.agent_balances agent_id init } := by
  simp [Ledger.create_account, hfresh, not_lt.mpr hinit]

/-- **C3.** A delegation by an agent whose balance is `b = spawn_cost + ε`
with `ε > 0`, whose spawn succeeds with a fresh child id, returns the
`delegated` result; the parent's balance drops by exactly
`spawn_cost + allocation` with `allocation = 3/4 · (b − spawn_cost)`,
the child's account is created with balance `allocation`, and the
child's config is built with `parent_id` equal to the delegating
agent's id. -/
theorem C3_delegation_success (l : Ledger) (pid cid : String) (spawn_cost b : ℚ)
    (Params : Type) (role task : String) (crit : Option (Criteria Params))
    (pin pout tuc : ℚ)
    (hsc : 0 < spawn_cost) (hb : lookupBal l.agent_balances pid = some b)
    (hgt : spawn_cost < b) (hfresh : lookupBal l.agent_balances cid = none) :
    ∃ l3, Agent.delegate_task l pid spawn_cost (.ok cid) = (.ok (.delegated cid), l3) ∧
      l3.get_balance pid = b - (spawn_cost + (b - spawn_cost) * (3 / 4)) ∧
      l3.get_balance cid = (b - spawn_cost) * (3 / 4) ∧
      0 < (b - spawn_cost) * (3 / 4) ∧
      (Orchestrator.spawn_agent_config Params role task ((b - spawn_cost) * (3 / 4))
        (some pid) crit pin pout spawn_cost tuc).parent_id = some pid := by
  have hne : cid ≠ pid := by
    intro h
    rw [h, hb] at hfresh
    cases hfresh
  have hb1 : (0 : ℚ) < b - spawn_cost := by linarith
  have halloc0 : (0 : ℚ) < (b - spawn_cost) * (3 / 4) := by nlinarith
  have hallocle : (b - spawn_cost) * (3 / 4) ≤ b - spawn_cost := by nlinarith
  have hch1 := charge_ok l pid spawn_cost .spawn_agent "Spawning sub-agent" b hsc hb
    (le_of_lt hgt)
  have hlook1 : lookupBal (setBal l.agent_balances pid (b - spawn_cost)) pid =
      some (b - spawn_cost) := lookupBal_setBal_self _ _ _
  have hch2 := charge_ok
    { transactions := l.transactions ++ [⟨pid, .spawn_agent, -spawn_cost, "Spawning sub-agent"⟩],
      agent_balances := setBal l.agent_balances pid (b - spawn_cost) }
    pid ((b - spawn_cost) * (3 / 4)) .budget_allocation "Allocating budget"
    (b - spawn_cost) halloc0 hlook1 hallocle
  have hlookc : lookupBal
      (setBal (setBal l.agent_balances pid (b - spawn_cost)) pid
        (b - spawn_cost - (b - spawn_cost) * (3 / 4))) cid = none := by
    rw [lookupBal_setBal_ne _ _ _ _ hne, lookupBal_setBal_ne _ _ _ _ hne]
    exact hfresh
  have hcr := create_account_ok
    { transactions :=
        (l.transactions ++ [⟨pid, .spawn_agent, -spawn_cost, "Spawning sub-agent"⟩]) ++
          [⟨pid, .budget_allocation, -((b - spawn_cost) * (3 / 4)), "Allocating budget"⟩],
      agent_balances := setBal (setBal l.agent_balances pid (b - spawn_cost)) pid
        (b - spawn_cost - (b - spawn_cost) * (3 / 4)) }
    cid ((b - spawn_cost) * (3 / 4)) hlookc (le_of_lt halloc0)
  refine ⟨Ledger.mk
      ((l.transactions ++ [⟨pid, .spawn_agent, -spawn_cost, "Spawning sub-agent"⟩]) ++
        [⟨pid, .budget_allocation, -((b - spawn_cost) * (3 / 4)), "Allocating budget"⟩])
      (setBal (setBal (setBal l.agent_balances pid (b - spawn_cost)) pid
        (b - spawn_cost - (b - spawn_cost) * (3 / 4))) cid ((b - spawn_cost) * (3 / 4))),
    ?_, ?_, ?_, halloc0, rfl⟩
  · simp only [Agent.delegate_task, Ledger.get_balance, hb, Option.getD_some,
      if_neg (not_lt.mpr (le_of_lt hgt)), hch1, hch2, hcr]
  · simp only [Ledger.get_balance]
    rw [lookupBal_setBal_ne _ _ _ _ (fun h => hne h.symm), lookupBal_setBal_self]
    simp only [Option.getD_some]
    ring
  · simp only [Ledger.get_balance]
    rw [lookupBal_setBal_self]
    rfl

/-- Witness for C3: parent balance 2, spawn cost 1, fresh child: the
delegation succeeds, the parent ends at `2 − (1 + 3/4)` and the child at
`3/4`. -/
theorem C3_delegation_success_witness :
    ∃ l3, Agent.delegate_task ⟨[], [("p", 2)]⟩ "p" 1 (.ok "c") =
        (.ok (.delegated "c"), l3) ∧
      l3.get_balance "p" = 2 - (1 + (2 - 1) * (3 / 4)) ∧
      l3.get_balance "c" = (2 - 1) * (3 / 4) ∧
      0 < ((2 : ℚ) - 1) * (3 / 4) ∧
      (Orchestrator.spawn_agent_config Unit "Specialist" "t" ((2 - 1) * (3 / 4))
        (some "p") none 5 15 1 (1 / 200)).parent_id = some "p" :=
  C3_delegation_success ⟨[], [("p", 2)]⟩ "p" "c" 1 2 Unit "Specialist" "t" none 5 15
    (1 / 200) (by norm_num) rfl (by norm_num) rfl

/-- **C4 counterexample.** A parent whose balance equals `spawn_cost`
exactly (here both 1) passes the `balance < spawn_cost` guard, is
debited `spawn_cost`, and then the allocation charge of
`0.75 × 0 = 0` raises an uncaught `ValueError` (`Ledger.charge` rejects
non-positive amounts): the delegation fails with the parent's balance
left at 0 instead of the original 1 — no refund is issued, contradicting
the claim that every delegation failure leaves the parent's net balance
unchanged. -/
theorem C4_counterexample :
    (Agent.delegate_task ⟨[], [("p", 1)]⟩ "p" 1 (.ok "c")).1 = .error .valueError ∧
    Ledger.get_balance (Agent.delegate_task ⟨[], [("p", 1)]⟩ "p" 1 (.ok "c")).2 "p" = 0 ∧
    Ledger.get_balance (⟨[], [("p", 1)]⟩ : Ledger) "p" = 1 := by
  refine ⟨?_, ?_, ?_⟩ <;>
    norm_num [Agent.delegate_task, Ledger.get_balance, Ledger.charge, lookupBal, setBal,
      Ledger.record_transaction]

/-- **C4 (amended).** For every delegation failure by a parent whose
balance `b` is not exactly `spawn_cost`, the parent's net balance is
unchanged: on `balance < spawn_cost` nothing was debited, and on a spawn
failure (`MaxAgentsReached`, any other spawn exception, or a duplicate
child account) the refund credit restores exactly the
`spawn_cost + allocation` that had been debited. (The excluded case
`b = spawn_cost` is the counterexample above.) -/
theorem C4_failed_delegation_refund (l : Ledger) (pid : String) (spawn_cost b : ℚ)
    (outcome : SpawnOutcome)
    (hsc : 0 < spawn_cost) (hb : lookupBal l.agent_balances pid = some b)
    (hbne : b ≠ spawn_cost)
    (hfail : ∀ cid, (Agent.delegate_task l pid spawn_cost outcome).1 ≠
      .ok (.delegated cid)) :
    Ledger.get_balance (Agent.delegate_task l pid spawn_cost outcome).2 pid = b := by
  by_cases hlt : b < spawn_cost
  · simp [Agent.delegate_task, Ledger.get_balance, hb, if_pos hlt]
  · have hgt : spawn_cost < b := lt_of_le_of_ne (not_lt.mp hlt) (fun h => hbne h.symm)
    have hb1 : (0 : ℚ) < b - spawn_cost := by linarith
    have halloc0 : (0 : ℚ) < (b - spawn_cost) * (3 / 4) := by nlinarith
    have hallocle : (b - spawn_cost) * (3 / 4) ≤ b - spawn_cost := by nlinarith
    have hch1 := charge_ok l pid spawn_cost .spawn_agent "Spawning sub-agent" b hsc hb
      (le_of_lt hgt)
    have hlook1 : lookupBal (setBal l.agent_balances pid (b - spawn_cost)) pid =
        some (b - spawn_cost) := lookupBal_setBal_self _ _ _
    have hch2 := charge_ok
      (Ledger.mk
        (l.transactions ++ [⟨pid, .spawn_agent, -spawn_cost, "Spawning sub-agent"⟩])
        (setBal l.agent_balances pid (b - spawn_cost)))
      pid ((b - spawn_cost) * (3 / 4)) .budget_allocation "Allocating budget"
      (b - spawn_cost) halloc0 hlook1 hallocle
    have hlook2 : lookupBal
        (setBal (setBal l.agent_balances pid (b - spawn_cost)) pid
          (b - spawn_cost - (b - spawn_cost) * (3 / 4))) pid =
        some (b - spawn_cost - (b - spawn_cost) * (3 / 4)) := lookupBal_setBal_self _ _ _
    have hsum0 : (0 : ℚ) < spawn_cost + (b - spawn_cost) * (3 / 4) := by linarith
    cases outcome with
    | maxAgentsReached =>
        have hcr2 := credit_ok
          (Ledger.mk
            ((l.transactions ++ [⟨pid, .spawn_agent, -spawn_cost, "Spawning sub-agent"⟩]) ++
              [⟨pid, .budget_allocation, -((b - spawn_cost) * (3 / 4)), "Allocating budget"⟩])
            (setBal (setBal l.agent_balances pid (b - spawn_cost)) pid
              (b - spawn_cost - (b - spawn_cost) * (3 / 4))))
          pid (spawn_cost + (b - spawn_cost) * (3 / 4)) .refund
          "Refund for max agents reached."
          (b - spawn_cost - (b - spawn_cost) * (3 / 4)) hsum0 hlook2
        simp only [Agent.delegate_task, Ledger.get_balance, hb, Option.getD_some,
          if_neg hlt, hch1, hch2, Agent.delegate_refund, hcr2]
        rw [lookupBal_setBal_self]
        simp only [Option.getD_some]
        ring
    | otherError =>
        have hcr2 := credit_ok
          (Ledger.mk
            ((l.transactions ++ [⟨pid, .spawn_agent, -spawn_cost, "Spawning sub-agent"⟩]) ++
              [⟨pid, .budget_allocation, -((b - spawn_cost) * (3 / 4)), "Allocating budget"⟩])
            (setBal (setBal l.agent_balances pid (b - spawn_cost)) pid
              (b - spawn_cost - (b - spawn_cost) * (3 / 4))))
          pid (spawn_cost + (b - spawn_cost) * (3 / 4)) .refund
          "Refund for unexpected spawn failure."
          (b - spawn_cost - (b - spawn_cost) * (3 / 4)) hsum0 hlook2
        simp only [Agent.delegate_task, Ledger.get_balance, hb, Option.getD_some,
          if_neg hlt, hch1, hch2, Agent.delegate_refund, hcr2]
        rw [lookupBal_setBal_self]
        simp only [Option.getD_some]
        ring
    | ok cid =>
        cases hlc : lookupBal
            (setBal (setBal l.agent_balances pid (b - spawn_cost)) pid
              (b - spawn_cost - (b - spawn_cost) * (3 / 4))) cid with
        | none =>
            have hcrOK := create_account_ok
              (Ledger.mk
                ((l.transactions ++
                    [⟨pid, .spawn_agent, -spawn_cost, "Spawning sub-agent"⟩]) ++
                  [⟨pid, .budget_allocation, -((b - spawn_cost) * (3 / 4)),
                    "Allocating budget"⟩])
                (setBal (setBal l.agent_balances pid (b - spawn_cost)) pid
                  (b - spawn_cost - (b - spawn_cost) * (3 / 4))))
              cid ((b - spawn_cost) * (3 / 4)) hlc (le_of_lt halloc0)
            exfalso
            apply hfail cid
            simp only [Agent.delegate_task, Ledger.get_balance, hb, Option.getD_some,
              if_neg hlt, hch1, hch2, hcrOK]
        | some v =>
            have hdup : Ledger.create_account
                (Ledger.mk
                  ((l.transactions ++
                      [⟨pid, .spawn_agent, -spawn_cost, "Spawning sub-agent"⟩]) ++
                    [⟨pid, .budget_allocation, -((b - spawn_cost) * (3 / 4)),
                      "Allocating budget"⟩])
                  (setBal (setBal l.agent_balances pid (b - spawn_cost)) pid
                    (b - spawn_cost - (b - spawn_cost) * (3 / 4))))
                cid ((b - spawn_cost) * (3 / 4)) = .error .valueError := by
              simp [Ledger.create_account, hlc]
            have hcr2 := credit_ok
              (Ledger.mk
                ((l.transactions ++
                    [⟨pid, .spawn_agent, -spawn_cost, "Spawning sub-agent"⟩]) ++
                  [⟨pid, .budget_allocation, -((b - spawn_cost) * (3 / 4)),
                    "Allocating budget"⟩])
                (setBal (setBal l.agent_balances pid (b - spawn_cost)) pid
                  (b - spawn_cost - (b - spawn_cost) * (3 / 4))))
              pid (spawn_cost + (b - spawn_cost) * (3 / 4)) .refund
              "Refund for unexpected spawn failure."
              (b - spawn_cost - (b - spawn_cost) * (3 / 4)) hsum0 hlook2
            simp only [Agent.delegate_task, Ledger.get_balance, hb, Option.getD_some,
              if_neg hlt, hch1, hch2, hdup, Agent.delegate_refund, hcr2]
            rw [lookupBal_setBal_self]
            simp only [Option.getD_some]
            ring

/-- Witness for the amended C4: parent balance 3, spawn cost 1, spawn
hits the agent cap; the attempt leaves the balance at 3. -/
theorem C4_failed_delegation_refund_witness :
    Ledger.get_balance
      (Agent.delegate_task ⟨[], [("p", 3)]⟩ "p" 1 .maxAgentsReached).2 "p" = 3 :=
  C4_failed_delegation_refund ⟨[], [("p", 3)]⟩ "p" 1 3 .maxAgentsReached (by norm_num)
    rfl (by norm_num)
    (by
      have hres : (Agent.delegate_task ⟨[], [("p", 3)]⟩ "p" 1 .maxAgentsReached).1 =
          .ok .maxAgentsError := by
        norm_num [Agent.delegate_task, Ledger.get_balance, Ledger.charge, lookupBal,
          setBal, Ledger.record_transaction, Agent.delegate_refund, Ledger.credit]
      intro cid
      rw [hres]
      simp)

/-- **C5 counterexample.** An Active agent with a positive balance (here
1/1000) smaller than the tool-use cost (0.005 = 1/200) has its tool
debit denied, yet `_use_tool` merely returns the
`Insufficient funds for tool usage` error result and the agent state
remains Active — refuting the claim that *any* denied LLM-or-tool debit
transitions Active to Dead. -/
theorem C5_counterexample :
    (Agent.use_tool Unit ⟨[], [("w", 1 / 1000)]⟩ .active "w" (1 / 200)
        (some "file_manager") ()).1 = .ok .insufficientFunds ∧
    (Agent.use_tool Unit ⟨[], [("w", 1 / 1000)]⟩ .active "w" (1 / 200)
        (some "file_manager") ()).2.1 = .active := by
  norm_num [Agent.use_tool, Ledger.charge, lookupBal, Ledger.record_transaction]

/-- **C5 (amended).** Denied *LLM* debits do kill the agent: `think`
with a non-positive balance returns the thought `Out of funds` with
state Dead (this is the spec's bankrupt-worker scenario, budget 0), and
a positive-cost LLM charge that is denied also sets state Dead. A denied
*tool* debit, however, leaves the state exactly as it was and returns
the insufficient-funds error result. -/
theorem C5_denied_debits (l : Ledger) (st : AgentState) (thoughts : List String)
    (Params : Type) (w : String) (pin pout tuc : ℚ) (i o : ℕ) (resp tname : String)
    (params : Params) (b : ℚ)
    (hb : lookupBal l.agent_balances w = some b) :
    (b ≤ 0 →
      Agent.think l st thoughts w pin pout i o resp =
        (.ok "Out of funds", .dead, thoughts, l)) ∧
    (0 < b →
      0 < ((i : ℚ) / 1000000) * pin + ((o : ℚ) / 1000000) * pout →
      b < ((i : ℚ) / 1000000) * pin + ((o : ℚ) / 1000000) * pout →
      (Agent.think l st thoughts w pin pout i o resp).1 =
          .ok "Out of funds after final API call" ∧
      (Agent.think l st thoughts w pin pout i o resp).2.1 = .dead) ∧
    (0 < tuc → b < tuc →
      (Agent.use_tool Params l st w tuc (some tname) params).1 = .ok .insufficientFunds ∧
      (Agent.use_tool Params l st w tuc (some tname) params).2.1 = st) := by
  refine ⟨?_, ?_, ?_⟩
  · intro hb0
    simp [Agent.think, Ledger.get_balance, hb, hb0]
  · intro hb0 hcost hden
    have hch := charge_denied l w
      (((i : ℚ) / 1000000) * pin + ((o : ℚ) / 1000000) * pout) .api_call
      "LLM API usage" b hcost hb hden
    constructor <;>
      simp [Agent.think, Ledger.get_balance, hb, not_le.mpr hb0, hcost, hch]
  · intro htuc hden
    have hch := charge_denied l w tuc .tool_usage ("Using tool " ++ tname) b htuc hb hden
    constructor <;> simp [Agent.use_tool, hch]

/-- Witness for the amended C5: the spec's bankrupt worker (budget 0,
first `think`) dies with thought `Out of funds`, and a tool-charge
denial leaves the state Active. -/
theorem C5_denied_debits_witness :
    Agent.think ⟨[], [("w", 0)]⟩ .active [] "w" 5 15 0 0 "r" =
      (.ok "Out of funds", .dead, [], ⟨[], [("w", 0)]⟩) ∧
    (Agent.use_tool Unit ⟨[], [("w", 0)]⟩ .active "w" (1 / 200)
        (some "file_manager") ()).2.1 = .active :=
  ⟨(C5_denied_debits ⟨[], [("w", 0)]⟩ .active [] Unit "w" 5 15 (1 / 200) 0 0 "r"
      "file_manager" () 0 rfl).1 (le_refl 0),
   ((C5_denied_debits ⟨[], [("w", 0)]⟩ .active [] Unit "w" 5 15 (1 / 200) 0 0 "r"
      "file_manager" () 0 rfl).2.2 (by norm_num) (by norm_num)).2⟩

/-- **C6.** A worker with completion criteria: whenever the results as
recorded by the end of an iteration contain a non-error entry matching
the criteria (tuple-equality on action/tool/parameters), that iteration
invokes the auto-delivery hook and ends with the worker Completed — in
particular the iteration that records the matching result, so
completion happens on or before the end of the next loop iteration after
the match exists. -/
theorem C6_criteria_completion (Params : Type) [DecidableEq Params] [Inhabited Params]
    (criteria : Criteria Params) (st : WorkerSt Params)
    (act_result : ActionResult Params) (act_state : AgentState)
    (r : ActionResult Params)
    (hr : r ∈ st.results ++ [act_result]) (hre : r.hasError = false)
    (hm : matchesCriteria Params r criteria = true) :
    (Agent.run_worker_iteration Params (some criteria) st .active act_result
        act_state).state = .completed ∧
    (Agent.run_worker_iteration Params (some criteria) st .active act_result
        act_state).delivered = true := by
  have hcomplete : Agent.is_task_complete_worker Params (some criteria)
      (st.results ++ [act_result]) = true := by
    simp only [Agent.is_task_complete_worker, List.any_eq_true, List.mem_reverse]
    exact ⟨r, hr, by simp [hre, hm]⟩
  constructor <;> simp [Agent.run_worker_iteration, hcomplete]

/-- Witness for C6: an empty-history worker whose act produces a
non-error `use_tool` result equal to its criteria completes and delivers
in that same iteration. -/
theorem C6_criteria_completion_witness :
    (Agent.run_worker_iteration Unit (some ⟨some "use_tool", some "file_manager", some ()⟩)
        ⟨.active, [], 0, false⟩ .active
        ⟨false, some "use_tool", some "file_manager", some ()⟩ .active).state =
      .completed ∧
    (Agent.run_worker_iteration Unit (some ⟨some "use_tool", some "file_manager", some ()⟩)
        ⟨.active, [], 0, false⟩ .active
        ⟨false, some "use_tool", some "file_manager", some ()⟩ .active).delivered =
      true :=
  C6_criteria_completion Unit ⟨some "use_tool", some "file_manager", some ()⟩
    ⟨.active, [], 0, false⟩ ⟨false, some "use_tool", some "file_manager", some ()⟩
    .active ⟨false, some "use_tool", some "file_manager", some ()⟩
    (by simp) rfl (by decide)

/-- **C10.** A worker without completion criteria: the completion check
succeeds exactly when at least two recorded results carry no error key,
and any iteration whose recorded results reach two non-error entries
ends with the worker Completed and the file-delivery hook invoked. -/
theorem C10_default_completion (Params : Type) [DecidableEq Params] [Inhabited Params]
    (st : WorkerSt Params) (act_result : ActionResult Params) (act_state : AgentState) :
    (Agent.is_task_complete_worker Params none (st.results ++ [act_result]) = true ↔
      2 ≤ ((st.results ++ [act_result]).filter (fun r => !r.hasError)).length) ∧
    (2 ≤ ((st.results ++ [act_result]).filter (fun r => !r.hasError)).length →
      (Agent.run_worker_iteration Params none st .active act_result act_state).state =
          .completed ∧
      (Agent.run_worker_iteration Params none st .active act_result act_state).delivered =
          true) := by
  constructor
  · simp [Agent.is_task_complete_worker]
  · intro hcount
    have hcomplete : Agent.is_task_complete_worker Params none
        (st.results ++ [act_result]) = true := by
      simp only [Agent.is_task_complete_worker, decide_eq_true_eq]
      exact hcount
    constructor <;> simp [Agent.run_worker_iteration, hcomplete]

/-- Witness for C10: a worker holding one earlier non-error result whose
act records a second one completes and delivers in that iteration. -/
theorem C10_default_completion_witness :
    (Agent.is_task_complete_worker Unit none
        ([(⟨false, some "use_tool", none, none⟩ : ActionResult Unit)] ++
          [(⟨false, some "complete", none, none⟩ : ActionResult Unit)]) = true ↔
      2 ≤ (([(⟨false, some "use_tool", none, none⟩ : ActionResult Unit)] ++
          [(⟨false, some "complete", none, none⟩ : ActionResult Unit)]).filter
            (fun r => !r.hasError)).length) ∧
    (Agent.run_worker_iteration Unit none
        ⟨.active, [(⟨false, some "use_tool", none, none⟩ : ActionResult Unit)], 0, false⟩
        .active ⟨false, some "complete", none, none⟩ .active).state = .completed :=
  ⟨(C10_default_completion Unit
      ⟨.active, [(⟨false, some "use_tool", none, none⟩ : ActionResult Unit)], 0, false⟩
      ⟨false, some "complete", none, none⟩ .active).1,
   ((C10_default_completion Unit
      ⟨.active, [(⟨false, some "use_tool", none, none⟩ : ActionResult Unit)], 0, false⟩
      ⟨false, some "complete", none, none⟩ .active).2 (by decide)).1⟩

/-- **C7 (code bug).** A mailbox holding a `tool_creation_success`
report from a Tool Forging Agent (whose task, as always for forgers
spawned by `handle_tool_request`, embeds `description: '…'`) makes the
pass raise `AttributeError`: `pending_tool_requests.discard(...)` is
called on a `dict`. The pass therefore never completes — the forger is
not marked Completed, the pending entry keyed by the requester is
cleared only when the deployment path ran first, and the already-drained
non-system messages are never re-inserted. -/
theorem C7_pass_raises_attribute_error :
    Orchestrator.extract_tool_description (Orchestrator.forging_task "make charts") =
      some "make charts" ∧
    Orchestrator.process_system_events_one
      ⟨fun s => s == "forger1", fun _ => Orchestrator.forging_task "make charts",
        fun _ => true⟩
      "req1"
      [⟨"peer", some "task_completed", none, "m1"⟩,
       ⟨"forger1", some "tool_creation_success", some "new_tool.py", "m2"⟩]
      [("req1", "make charts")] = .error .attributeError := by
  constructor
  · decide
  · decide

/-- **C8 (code bug).** With `disabled_tools = ["pytest_runner"]` the
filter skips `pytest_runner` like any other tool — the computed
`is_protected_tool` flag is never consulted — so the protected system
tool is *not* registered, contradicting the claim that the
disabled-tools filter never excludes a protected tool. -/
theorem C8_pytest_runner_can_be_disabled :
    Toolbox.tool_registration_decision ["pytest_runner"] true "PytestRunnerTool"
        "pytest_runner" = false ∧
    "pytest_runner" ∉
      Toolbox.initialize_registered ["pytest_runner"] true
        [("FileManagerTool", "file_manager"), ("PytestRunnerTool", "pytest_runner"),
         ("WebSearchTool", "web_search")] := by
  decide

/-- **C9 (code bug).** The `startswith` string-prefix check admits
sibling directories whose name extends the workspace directory name:
from workspace `/output/workspace/agent1`, the parameter
`../agent1evil/data.txt` canonicalises to
`/output/workspace/agent1evil/data.txt` — outside the workspace root —
yet `_get_safe_path` accepts it, so the operation proceeds on a path
outside the workspace instead of returning a permission-denied result.
(Plain `../../..` traversals and foreign absolute paths are rejected, as
the last two conjuncts confirm.) -/
theorem C9_prefix_check_escape :
    FileManagerTool.get_safe_path "/output/workspace/agent1" "../agent1evil/data.txt" =
      .ok "/output/workspace/agent1evil/data.txt" ∧
    spec_escapes_workspace "/output/workspace/agent1"
      "/output/workspace/agent1evil/data.txt" = true ∧
    FileManagerTool.get_safe_path "/output/workspace/agent1" "../../../../etc/passwd" =
      .error .permissionError ∧
    FileManagerTool.get_safe_path "/output/workspace/agent1" "/etc/passwd" =
      .error .permissionError := by
  refine ⟨?_, ?_, ?_, ?_⟩ <;> decide

end AOS
